import Mathlib

/-
Verification of the hello-message frontend (src/frontend/src/App.jsx).

The repository carries three near-duplicate variants of the App component:
a static Tailwind variant that issues no request, a fetch-based variant
(useEffect promise chain on http://127.0.0.1:8000/api/hello), and an
axios-based variant that calls the getHello helper of api.js. Each variant
is embedded below as a pure function from the outcome of its one network
interaction to the observable effects of a mount: the values passed to the
state setter, the console.error entries, and the rendered text.
-/

namespace HelloFrontend

/-- Claim support: a JavaScript value as the message state can hold it:
either the value undefined (property access on an object lacking the key)
or a string. The endpoint contract only ever supplies strings, and these
two cases are the only ones the components distinguish. -/
inductive JsValue where
  | undef : JsValue
  | str : String → JsValue
deriving DecidableEq, Repr

/-- Truthiness of a state value as the JSX ternary tests it: undefined and
the empty string are falsy, every other string is truthy. -/
def JsValue.truthy : JsValue → Bool
  | .undef => false
  | .str s => if s = "" then false else true

/-- Text a truthy value displays in the fetch variant ternary. Undefined
would coerce to the text "undefined", but it is falsy and never reaches
this branch there. -/
def JsValue.display : JsValue → String
  | .undef => "undefined"
  | .str s => s

/-- Text a JSX expression child renders in the axios variant: a string
renders as itself and undefined renders as nothing. -/
def JsValue.reactText : JsValue → String
  | .undef => ""
  | .str s => s

/-- An error value travelling down the request path: a network failure of
the underlying transport, a JSON parse failure of the response body, or a
non-2xx HTTP status (the axios client rejects on those by default). -/
inductive JsError where
  | network : String → JsError
  | jsonParse : String → JsError
  | httpStatus : Nat → JsError
deriving DecidableEq, Repr

/-- Body of an HTTP response as the fetch variant observes it through
res.json(): the parse promise either rejects because the body is not
well-formed JSON, or resolves to an object given by its fields. -/
inductive JsonBody where
  | malformed : String → JsonBody
  | object : List (String × JsValue) → JsonBody
deriving DecidableEq, Repr

/-- Outcome of the browser call fetch("http://127.0.0.1:8000/api/hello"):
the promise rejects only on a network error; otherwise a response arrives
carrying an HTTP status code and a body. The fetch API resolves for every
status, 2xx or not. -/
inductive FetchOutcome where
  | networkError : String → FetchOutcome
  | response : Nat → JsonBody → FetchOutcome
deriving DecidableEq, Repr

/-- Observable effects of one mount of the fetch variant of App: the
successive values passed to setMsg and the errors passed to
console.error, in order. -/
structure FetchRun where
  stateWrites : List JsValue
  logs : List JsError
deriving DecidableEq, Repr

/-- One mount of the fetch variant of App, i.e. the useEffect promise
chain fetch(...).then(res.json()).then(setMsg(data.message)).catch(log):
fetch rejects only on a network error, res.json() rejects on a malformed
body, and a parsed object has its message field passed to setMsg. Both
rejections reach the single catch, which only logs and sets no state. No
res.ok check is performed, so the status code is ignored. -/
def fetchApp_run : FetchOutcome → FetchRun
  | .networkError e => ⟨[], [.network e]⟩
  | .response _ (.malformed p) => ⟨[], [.jsonParse p]⟩
  | .response _ (.object fields) => ⟨[(fields.lookup "message").getD .undef], []⟩

/-- Initial value of the message state in both fetching variants:
useState with the empty string. -/
def initialMsg : JsValue := .str ""

/-- Value of a useState variable after a run: the last value passed to
the setter, or the initial value when the setter was never called. -/
def lastWrite (init : JsValue) (writes : List JsValue) : JsValue :=
  writes.foldl (fun _ v => v) init

/-- Message state of the fetch variant once its promise chain has
settled. -/
def fetchApp_finalMsg (o : FetchOutcome) : JsValue :=
  lastWrite initialMsg (fetchApp_run o).stateWrites

/-- Rendered text of the fetch variant container, the JSX ternary
rendering msg when truthy and the loading placeholder otherwise. -/
def fetchApp_render (msg : JsValue) : String :=
  if msg.truthy then msg.display else "Loading..."

/-- An HTTP request as issued by a mount. -/
structure Request where
  method : String
  url : String
deriving DecidableEq, Repr

/-- Environment as read through import.meta.env: the optional
VITE_API_URL override. -/
structure Env where
  VITE_API_URL : Option String
deriving DecidableEq, Repr

/-- Base URL of the axios instance created in api.js, the expression
import.meta.env.VITE_API_URL or-else the localhost default; a set but
empty override is falsy in JavaScript and also falls back. -/
def baseURL (env : Env) : String :=
  match env.VITE_API_URL with
  | some u => if u = "" then "http://localhost:8000" else u
  | none => "http://localhost:8000"

/-- Request URL of the axios GET: the instance base URL combined with the
relative path /api/hello (neither configured default carries a trailing
slash, so the combination is plain concatenation). -/
def getHello_url (env : Env) : String := baseURL env ++ "/api/hello"

/-- Hard-coded request URL of the fetch variant; it reads no
environment. -/
def fetchApp_url : String := "http://127.0.0.1:8000/api/hello"

/-- Requests issued by one mount of the fetch variant: its effect has an
empty dependency list, so it runs exactly once per mount, right after the
initial render. -/
def fetchApp_requests : List Request := [⟨"GET", fetchApp_url⟩]

/-- Requests issued by one mount of the Tailwind variant: it has no
effect hook and performs no network interaction at all. -/
def tailwindApp_requests : List Request := []

/-- Requests issued by one mount of the axios variant: its effect also
has an empty dependency list and calls getHello exactly once. -/
def axiosApp_requests (env : Env) : List Request := [⟨"GET", getHello_url env⟩]

/-- Outcome of the axios GET api.get of /api/hello as the awaiting caller
sees it: the promise resolves with the parsed response data (a JSON
object given by its fields) or rejects with an error. -/
inductive AxiosOutcome where
  | success : List (String × JsValue) → AxiosOutcome
  | failure : JsError → AxiosOutcome
deriving DecidableEq, Repr

/-- Result of one call to getHello in api.js: the value returned or the
error thrown, together with the console.error entries written (each entry
is the fixed label passed first plus the error object). -/
structure GetHelloResult where
  result : Except JsError (List (String × JsValue))
  logs : List (String × JsError)
deriving Repr

/-- Embedding of getHello from api.js: await the GET, return
response.data on success; on a thrown error, console.error a diagnostic
entry and rethrow the very same error. -/
def getHello (o : AxiosOutcome) : GetHelloResult :=
  match o with
  | .success data => ⟨.ok data, []⟩
  | .failure err => ⟨.error err, [("Error fetching data:", err)]⟩

/-- Observable effects of one mount of the axios variant of App. -/
structure AxiosAppRun where
  stateWrites : List JsValue
  logs : List (String × JsError)
deriving Repr

/-- One mount of the axios variant of App: fetchData awaits getHello; on
success it passes data.message to setMessage, on a thrown error it passes
the static fallback string. Logging happens inside getHello only. -/
def axiosApp_run (o : AxiosOutcome) : AxiosAppRun :=
  match (getHello o).result with
  | .ok data => ⟨[(data.lookup "message").getD .undef], (getHello o).logs⟩
  | .error _ => ⟨[.str "Failed to fetch message"], (getHello o).logs⟩

/-- Message state of the axios variant once fetchData has settled. -/
def axiosApp_finalMessage (o : AxiosOutcome) : JsValue :=
  lastWrite initialMsg (axiosApp_run o).stateWrites

/-- Rendered text of the message paragraph of the axios variant. -/
def axiosApp_render (message : JsValue) : String :=
  "Message from backend: " ++ message.reactText

/-- Substring containment on strings, stated on their character lists. -/
def containsStr (haystack needle : String) : Prop :=
  ∃ pre post : List Char, haystack.data = pre ++ needle.data ++ post

/-- Claim C1, counterexample: in the fetch variant a non-2xx response
(status 500) with a well-formed JSON body is a failing fetch outcome in
the sense of the claim, yet nothing is logged and the rendered output is
the raw message of the body, not a static fallback string. -/
theorem C1_counterexample :
    (fetchApp_run (.response 500 (.object [("message", .str "Internal Server Error")]))).logs = []
    ∧ fetchApp_render (fetchApp_finalMsg
        (.response 500 (.object [("message", .str "Internal Server Error")])))
        = "Internal Server Error" := by
  constructor <;> rfl

/-- Claim C1, amended: for every failing outcome the code detects — a
network error or a malformed JSON body in the fetch variant, any rejected
request in the axios variant — the rendered output is the variant's fixed
static string (the retained loading placeholder, resp. the fallback), is
independent of the error, and the error is logged exactly once. A non-2xx
response with a well-formed JSON body bypasses the fetch variant's catch
entirely. -/
theorem C1_failures_fallback_and_log :
    (∀ e : String,
        fetchApp_render (fetchApp_finalMsg (.networkError e)) = "Loading..."
        ∧ (fetchApp_run (.networkError e)).logs = [.network e])
    ∧ (∀ (s : Nat) (p : String),
        fetchApp_render (fetchApp_finalMsg (.response s (.malformed p))) = "Loading..."
        ∧ (fetchApp_run (.response s (.malformed p))).logs = [.jsonParse p])
    ∧ (∀ err : JsError,
        axiosApp_render (axiosApp_finalMessage (.failure err))
          = "Message from backend: Failed to fetch message"
        ∧ (axiosApp_run (.failure err)).logs = [("Error fetching data:", err)]) :=
  ⟨fun _ => ⟨rfl, rfl⟩, fun _ _ => ⟨rfl, rfl⟩, fun _ => ⟨rfl, rfl⟩⟩

/-- Claim C2, counterexample: the Tailwind variant of App mounts issuing
no request at all, so it is false that every mount of the component
issues exactly one GET request. -/
theorem C2_counterexample :
    tailwindApp_requests = [] ∧ tailwindApp_requests.length ≠ 1 := by
  constructor
  · rfl
  · decide

/-- Claim C2, amended: the fetch and axios variants each issue exactly
one GET request per mount, from the effect that runs once after the
initial render, to their respective /api/hello URL, with no retries or
re-fetch triggers; the Tailwind variant issues no request. -/
theorem C2_one_request_per_mount :
    fetchApp_requests = [⟨"GET", "http://127.0.0.1:8000/api/hello"⟩]
    ∧ (∀ env : Env, axiosApp_requests env = [⟨"GET", baseURL env ++ "/api/hello"⟩])
    ∧ fetchApp_requests.length = 1
    ∧ (∀ env : Env, (axiosApp_requests env).length = 1)
    ∧ tailwindApp_requests = [] :=
  ⟨rfl, fun _ => rfl, rfl, fun _ => rfl, rfl⟩

/-- Claim C3: a successful response whose JSON body is the object with a
single field message holding the string m renders an output containing m,
in both fetching variants; when m is empty the fetch variant shows the
placeholder, which still contains the empty string. -/
theorem C3_success_renders_message :
    ∀ (s : Nat) (m : String),
      containsStr
        (fetchApp_render (fetchApp_finalMsg (.response s (.object [("message", .str m)])))) m
      ∧ containsStr
        (axiosApp_render (axiosApp_finalMessage (.success [("message", .str m)]))) m := by
  intro s m
  constructor
  · by_cases hm : m = ""
    · subst hm
      exact ⟨[], "Loading...".data, rfl⟩
    · refine ⟨[], [], ?_⟩
      simp [fetchApp_render, fetchApp_finalMsg, fetchApp_run, lastWrite, initialMsg,
        JsValue.truthy, JsValue.display, hm]
  · refine ⟨"Message from backend: ".data, [], ?_⟩
    simp [axiosApp_render, axiosApp_finalMessage, axiosApp_run, getHello, lastWrite,
      initialMsg, JsValue.reactText]

/-- Claim C4, counterexample: with the environment override set to an
explicit other origin, the fetch variant still requests its hard-coded
URL, which is not that base followed by /api/hello: its base URL is not
configurable. -/
theorem C4_counterexample :
    fetchApp_requests = [⟨"GET", fetchApp_url⟩]
    ∧ fetchApp_url ≠ baseURL ⟨some "https://api.example.com"⟩ ++ "/api/hello" := by
  constructor
  · rfl
  · decide

/-- Claim C4, amended: the axios client's base URL is the VITE_API_URL
override when it is set and nonempty and defaults to the local
development origin http://localhost:8000; the axios request URL is that
base followed by /api/hello. The fetch variant instead uses the
hard-coded URL http://127.0.0.1:8000/api/hello regardless of the
environment. -/
theorem C4_base_url :
    (∀ u : String, u ≠ "" → baseURL ⟨some u⟩ = u)
    ∧ baseURL ⟨none⟩ = "http://localhost:8000"
    ∧ (∀ env : Env, axiosApp_requests env = [⟨"GET", baseURL env ++ "/api/hello"⟩])
    ∧ fetchApp_url = "http://127.0.0.1:8000/api/hello" := by
  refine ⟨fun u hu => ?_, rfl, fun _ => rfl, rfl⟩
  simp [baseURL, hu]

/-- Claim C4, witness: the amended statement applied at a concrete
nonempty override. -/
theorem C4_base_url_witness :
    baseURL ⟨some "https://api.example.org"⟩ = "https://api.example.org" :=
  C4_base_url.1 "https://api.example.org" (by decide)

/-- Claim C5: before the response resolves, the fetch variant renders the
loading placeholder from its initial empty state, and the axios variant's
message slot renders as the empty string. -/
theorem C5_initial_render :
    fetchApp_render initialMsg = "Loading..."
    ∧ initialMsg.reactText = ""
    ∧ axiosApp_render initialMsg = "Message from backend: " := by
  refine ⟨rfl, rfl, ?_⟩
  simp [axiosApp_render, initialMsg, JsValue.reactText]

/-- Claim C6, counterexample: in the fetch variant a failing run (network
error) never calls the state setter, so the message state is not
overwritten exactly once per mount. -/
theorem C6_counterexample :
    (fetchApp_run (.networkError "connection refused")).stateWrites = []
    ∧ (fetchApp_run (.networkError "connection refused")).stateWrites.length ≠ 1 := by
  constructor
  · rfl
  · decide

/-- Claim C6, amended: the message state starts as the empty string and
is written at most once per mount, by nothing but the fetch result or the
fallback: the axios variant writes exactly once (the fetched message
field on success, the static fallback string on failure); the fetch
variant writes exactly once — the parsed body's message field — when the
body parses to an object, and never when the fetch or the parse fails. -/
theorem C6_state_writes :
    (∀ o : AxiosOutcome, (axiosApp_run o).stateWrites.length = 1)
    ∧ (∀ d : List (String × JsValue),
        (axiosApp_run (.success d)).stateWrites = [(d.lookup "message").getD .undef])
    ∧ (∀ e : JsError,
        (axiosApp_run (.failure e)).stateWrites = [.str "Failed to fetch message"])
    ∧ (∀ o : FetchOutcome, (fetchApp_run o).stateWrites.length ≤ 1)
    ∧ (∀ (s : Nat) (fs : List (String × JsValue)),
        (fetchApp_run (.response s (.object fs))).stateWrites
          = [(fs.lookup "message").getD .undef])
    ∧ (∀ e : String, (fetchApp_run (.networkError e)).stateWrites = [])
    ∧ (∀ (s : Nat) (p : String),
        (fetchApp_run (.response s (.malformed p))).stateWrites = []) := by
  refine ⟨fun o => ?_, fun _ => rfl, fun _ => rfl, fun o => ?_, fun _ _ => rfl,
    fun _ => rfl, fun _ _ => rfl⟩
  · cases o <;> rfl
  · rcases o with _ | ⟨s, b⟩
    · simp [fetchApp_run]
    · cases b <;> simp [fetchApp_run]

/-- Claim C7, counterexample: a non-2xx status (503) with a well-formed
JSON body is a failing cause by the claim, yet the fetch variant writes
no diagnostic log entry for it and renders the cause-dependent body
message instead of a static fallback. -/
theorem C7_counterexample :
    (fetchApp_run (.response 503 (.object [("message", .str "Service Unavailable")]))).logs = []
    ∧ fetchApp_render (fetchApp_finalMsg
        (.response 503 (.object [("message", .str "Service Unavailable")])))
        = "Service Unavailable" := by
  constructor <;> rfl

/-- Claim C7, amended: in the axios variant all rejection causes are
collapsed — any two failing runs render the same static fallback and each
logs exactly one diagnostic entry. In the fetch variant only network
errors and JSON parse failures are collapsed (identical retained
placeholder output plus exactly one log entry each); a non-2xx status
with a well-formed JSON body is processed as a success and produces no
log entry. -/
theorem C7_single_error_kind :
    (∀ e₁ e₂ : JsError,
        axiosApp_render (axiosApp_finalMessage (.failure e₁))
          = axiosApp_render (axiosApp_finalMessage (.failure e₂))
        ∧ (axiosApp_run (.failure e₁)).logs.length = 1)
    ∧ (∀ (e p : String) (s : Nat),
        fetchApp_render (fetchApp_finalMsg (.networkError e))
          = fetchApp_render (fetchApp_finalMsg (.response s (.malformed p)))
        ∧ (fetchApp_run (.networkError e)).logs.length = 1
        ∧ (fetchApp_run (.response s (.malformed p))).logs.length = 1)
    ∧ (∀ (s : Nat) (fs : List (String × JsValue)),
        (fetchApp_run (.response s (.object fs))).logs = []) :=
  ⟨fun _ _ => ⟨rfl, rfl⟩, fun _ _ _ => ⟨rfl, rfl, rfl⟩, fun _ _ => rfl⟩

/-- Claim C8: in the fetch variant a successful response whose message is
the empty string renders the loading placeholder, identical to the
pre-response output, so an empty message is indistinguishable from the
loading state. -/
theorem C8_empty_message_looks_loading :
    ∀ s : Nat,
      fetchApp_render (fetchApp_finalMsg (.response s (.object [("message", .str "")])))
        = "Loading..."
      ∧ fetchApp_render initialMsg = "Loading..." :=
  fun _ => ⟨rfl, rfl⟩

/-- Claim C9: in the fetch variant a well-formed object body lacking a
message key is not treated as an error: the state is set once, to
undefined, nothing is logged, and the render stays at the loading
placeholder. -/
theorem C9_missing_key_not_error :
    ∀ (s : Nat) (fs : List (String × JsValue)),
      fs.lookup "message" = none →
      fetchApp_run (.response s (.object fs)) = ⟨[.undef], []⟩
      ∧ fetchApp_render (fetchApp_finalMsg (.response s (.object fs))) = "Loading..." := by
  intro s fs h
  constructor
  · simp [fetchApp_run, h]
  · simp [fetchApp_render, fetchApp_finalMsg, fetchApp_run, h, lastWrite, initialMsg,
      JsValue.truthy]

/-- Claim C9, witness: the statement applied to a concrete body whose
only key is detail. -/
theorem C9_missing_key_not_error_witness :
    fetchApp_run (.response 200 (.object [("detail", .str "Not Found")])) = ⟨[.undef], []⟩
    ∧ fetchApp_render (fetchApp_finalMsg (.response 200 (.object [("detail", .str "Not Found")])))
        = "Loading..." :=
  C9_missing_key_not_error 200 [("detail", .str "Not Found")] (by decide)

/-- Claim C10: getHello returns the parsed response data exactly when the
underlying GET succeeds, with nothing logged; on any failure it logs one
diagnostic entry and rethrows the very same error instead of swallowing
it or returning a default. -/
theorem C10_getHello_passthrough :
    ∀ (d : List (String × JsValue)) (e : JsError),
      getHello (.success d) = ⟨.ok d, []⟩
      ∧ getHello (.failure e) = ⟨.error e, [("Error fetching data:", e)]⟩ :=
  fun _ _ => ⟨rfl, rfl⟩

end HelloFrontend
